import Mathlib

/-!
Shallow embedding of the rust-state-machine runtime
(src/main.rs, src/system.rs, src/balances.rs, src/proof_of_existence.rs).

Concrete runtime types (src/main.rs, mod types): AccountID = String,
Balance = u128, BlockNumber = u32, Nonce = u32, Content = a static str.
Balances use checked u128 arithmetic, modelled on Nat with the explicit
bound 2^128.  BlockNumber and Nonce are incremented with plain `+= 1`
(overflow is declared a non-goal in the spec, §4.2), modelled as Nat.
Fallible operations return `Except String Unit`, mirroring
`Result` over unit and a static string, with the exact error strings of
the source.

`BTreeMap<K, V>` is modelled as an association list `List (K × V)`:
`mapLookup` is `get`, `mapInsert` is `insert` (overwrite in place),
`mapRemove` is `remove`.  Maps built by the program never contain a
duplicate key, and on such lists these operations agree with the
ordered-map semantics of `BTreeMap`.
-/

abbrev AccountID := String

abbrev Content := String

/-- DispatchResult from the support module: a Result of unit and a
static error string. -/
abbrev DispatchResult := Except String Unit

/-- One more than the largest u128 value: the bound used by the checked
u128 arithmetic of the Balances pallet. -/
def u128Size : Nat := 2 ^ 128

/-- u128::checked_sub: `none` exactly when the subtraction underflows. -/
def checked_sub (a b : Nat) : Option Nat :=
  if b ≤ a then some (a - b) else none

/-- u128::checked_add: `none` exactly when the sum exceeds u128::MAX. -/
def checked_add (a b : Nat) : Option Nat :=
  if a + b < u128Size then some (a + b) else none

section MapModel

variable {K V : Type} [DecidableEq K]

/-- BTreeMap::get, as lookup of the first matching key. -/
def mapLookup : List (K × V) → K → Option V
  | [], _ => none
  | (k', v) :: rest, k => if k' = k then some v else mapLookup rest k

/-- BTreeMap::insert: overwrite the existing entry in place, or append a
new entry when the key is absent. -/
def mapInsert : List (K × V) → K → V → List (K × V)
  | [], k, v => [(k, v)]
  | (k', v') :: rest, k, v =>
      if k' = k then (k, v) :: rest else (k', v') :: mapInsert rest k v

/-- BTreeMap::remove: drop every entry with the given key (maps built by
the program have at most one). -/
def mapRemove (m : List (K × V)) (k : K) : List (K × V) :=
  m.filter (fun p => decide (p.1 ≠ k))

theorem mapLookup_mapInsert_self (m : List (K × V)) (k : K) (v : V) :
    mapLookup (mapInsert m k v) k = some v := by
  induction m with
  | nil => simp [mapInsert, mapLookup]
  | cons p rest ih =>
      by_cases h : p.1 = k <;>
        simp [mapInsert, mapLookup, h, ih]

theorem mapLookup_mapInsert_ne (m : List (K × V)) (k k2 : K) (v : V)
    (h : k2 ≠ k) : mapLookup (mapInsert m k v) k2 = mapLookup m k2 := by
  have hk : ¬ k = k2 := fun hk => h hk.symm
  induction m with
  | nil => simp [mapInsert, mapLookup, hk]
  | cons p rest ih =>
      by_cases hp : p.1 = k
      · subst hp
        simp [mapInsert, mapLookup, hk]
      · by_cases hp2 : p.1 = k2 <;> simp [mapInsert, mapLookup, hp, hp2, h, hk, ih]

theorem mapLookup_mapRemove_self (m : List (K × V)) (k : K) :
    mapLookup (mapRemove m k) k = none := by
  induction m with
  | nil => simp [mapRemove, mapLookup]
  | cons p rest ih =>
      by_cases h : p.1 = k <;>
        simp [mapRemove, mapLookup, h, ih] <;>
        simpa [mapRemove] using ih

theorem mapLookup_mapRemove_ne (m : List (K × V)) (k k2 : K)
    (h : k2 ≠ k) : mapLookup (mapRemove m k) k2 = mapLookup m k2 := by
  have hk : ¬ k = k2 := fun e => h e.symm
  induction m with
  | nil => rfl
  | cons p rest ih =>
      by_cases hp : p.1 = k
      · subst hp
        simpa [mapRemove, mapLookup, h, hk] using ih
      · by_cases hp2 : p.1 = k2
        · simp [mapRemove, mapLookup, hp, hp2, h, hk]
        · simpa [mapRemove, mapLookup, hp, hp2, h, hk] using ih

/-- Sum of all stored values of a ledger. -/
def sumValues (m : List (K × Nat)) : Nat := (m.map Prod.snd).sum

theorem sumValues_mapInsert (m : List (K × Nat)) (k : K) (v : Nat) :
    sumValues (mapInsert m k v) + (mapLookup m k).getD 0 = sumValues m + v := by
  induction m with
  | nil => simp [mapInsert, mapLookup, sumValues]
  | cons p rest ih =>
      by_cases h : p.1 = k
      · simp [mapInsert, mapLookup, h, sumValues]
        omega
      · simp [mapInsert, mapLookup, h, sumValues] at ih ⊢
        omega

end MapModel

/-! ## System pallet (src/system.rs) -/

namespace system

/-- System pallet storage: the current block number and the per-account
nonce ledger. -/
structure Pallet where
  block_number : Nat
  nonce : List (AccountID × Nat)
  deriving DecidableEq

/-- system::Pallet::new. -/
def new : Pallet := { block_number := 0, nonce := [] }

/-- system::Pallet::inc_block_number: increase the block number by one. -/
def inc_block_number (p : Pallet) : Pallet :=
  { p with block_number := p.block_number + 1 }

/-- system::Pallet::inc_nonce: read the current nonce (zero if absent) and
write current plus one. -/
def inc_nonce (p : Pallet) (who : AccountID) : Pallet :=
  let nonce := (mapLookup p.nonce who).getD 0
  let new_nonce := nonce + 1
  { p with nonce := mapInsert p.nonce who new_nonce }

/-- Observer for the nonce ledger: a per-account counter, absent entries
implicitly zero (spec section 3). -/
def nonceOf (p : Pallet) (who : AccountID) : Nat :=
  (mapLookup p.nonce who).getD 0

end system

/-! ## Balances pallet (src/balances.rs) -/

namespace balances

/-- Balances pallet storage: the balance ledger. -/
structure Pallet where
  balances : List (AccountID × Nat)
  deriving DecidableEq

/-- balances::Pallet::new. -/
def new : Pallet := { balances := [] }

/-- balances::Pallet::set_balance: unconditional overwrite or insert. -/
def set_balance (p : Pallet) (who : AccountID) (amount : Nat) : Pallet :=
  { p with balances := mapInsert p.balances who amount }

/-- balances::Pallet::balance: zero if the account has no stored balance. -/
def balance (p : Pallet) (who : AccountID) : Nat :=
  (mapLookup p.balances who).getD 0

/-- balances::Pallet::transfer: checked subtraction on the caller
balance, checked addition on the recipient's balance, both reads before
any write; each failing check aborts with the corresponding error and no
write. -/
def transfer (p : Pallet) (caller toAcc : AccountID) (amount : Nat) :
    Pallet × DispatchResult :=
  let caller_balance := balance p caller
  let to_balance := balance p toAcc
  match checked_sub caller_balance amount with
  | none => (p, Except.error "Not enough funds")
  | some new_caller_balance =>
    match checked_add to_balance amount with
    | none => (p, Except.error "Amount is too large")
    | some new_to_balance =>
      (set_balance (set_balance p caller new_caller_balance) toAcc new_to_balance,
       Except.ok ())

/-- balances::Call. -/
inductive Call where
  | Transfer (toAcc : AccountID) (amount : Nat)
  deriving DecidableEq

end balances

/-! ## Proof-of-existence pallet (src/proof_of_existence.rs) -/

namespace proof_of_existence

/-- Proof-of-existence pallet storage: the claim ledger, content to owner. -/
structure Pallet where
  claims : List (Content × AccountID)
  deriving DecidableEq

/-- proof_of_existence::Pallet::new. -/
def new : Pallet := { claims := [] }

/-- proof_of_existence::Pallet::get_claim: the owner (if any) of a claim. -/
def get_claim (p : Pallet) (claim : Content) : Option AccountID :=
  match (mapLookup p.claims claim).isSome with
  | true => mapLookup p.claims claim
  | false => none

/-- proof_of_existence::Pallet::create_claim: error if the content is
already claimed, otherwise insert content to caller. -/
def create_claim (p : Pallet) (caller : AccountID) (claim : Content) :
    Pallet × DispatchResult :=
  match (mapLookup p.claims claim).isSome with
  | true => (p, Except.error "Claim already exists")
  | false => ({ claims := mapInsert p.claims claim caller }, Except.ok ())

/-- proof_of_existence::Pallet::revoke_claim: error if the claim is absent
or owned by someone other than the caller, otherwise remove the entry. -/
def revoke_claim (p : Pallet) (caller : AccountID) (claim : Content) :
    Pallet × DispatchResult :=
  match get_claim p claim with
  | some owner =>
      if owner = caller then
        ({ claims := mapRemove p.claims claim }, Except.ok ())
      else
        (p, Except.error "Not the owner")
  | none => (p, Except.error "Claim does not exist")

/-- proof_of_existence::Call: both variants carry their own caller field. -/
inductive Call where
  | CreateClaim (caller : AccountID) (claim : Content)
  | RevokeClaim (caller : AccountID) (claim : Content)
  deriving DecidableEq

end proof_of_existence

/-! ## Runtime and block executor (src/main.rs)

The `Extrinsic`, `Header` and `Block` record shapes live in the support
module of the repository, which is not among the provided sources.
Modelled from the spec: section 6 gives
`Block { header: { block_number }, extrinsics: [{ caller, call }] }`,
matching their use sites in src/main.rs. -/

/-- RuntimeCall (src/main.rs): one variant per pallet call. -/
inductive RuntimeCall where
  | Balances (c : balances.Call)
  | ProofOfExistence (c : proof_of_existence.Call)
  deriving DecidableEq

/-- Modelled from the spec: support::Extrinsic, a caller together with a
runtime call (src/support.rs is not among the provided sources). -/
structure Extrinsic where
  caller : AccountID
  call : RuntimeCall
  deriving DecidableEq

/-- Modelled from the spec: support::Header, carrying the block number
(src/support.rs is not among the provided sources). -/
structure Header where
  block_number : Nat
  deriving DecidableEq

/-- Modelled from the spec: support::Block, a header plus an ordered list
of extrinsics (src/support.rs is not among the provided sources). -/
structure Block where
  header : Header
  extrinsics : List Extrinsic
  deriving DecidableEq

/-- The main Runtime: one instance of every pallet. -/
structure Runtime where
  system : system.Pallet
  balances : balances.Pallet
  proof_of_existence : proof_of_existence.Pallet
  deriving DecidableEq

/-- Runtime::new. -/
def Runtime.new : Runtime :=
  { system := system.new, balances := balances.new,
    proof_of_existence := proof_of_existence.new }

/-- Runtime::dispatch (impl Dispatch for Runtime): route the call to the
owning pallet.  The Balances arm passes the extrinsic-level caller; the
two ProofOfExistence arms bind the `caller` field inside the call,
shadowing the extrinsic-level caller exactly as the source patterns do. -/
def Runtime.dispatch (rt : Runtime) (caller : AccountID)
    (runtime_call : RuntimeCall) : Runtime × DispatchResult :=
  match runtime_call with
  | .Balances (.Transfer toAcc amount) =>
      let r := balances.transfer rt.balances caller toAcc amount
      ({ rt with balances := r.1 }, r.2)
  | .ProofOfExistence (.CreateClaim caller claim) =>
      let r := proof_of_existence.create_claim rt.proof_of_existence caller claim
      ({ rt with proof_of_existence := r.1 }, r.2)
  | .ProofOfExistence (.RevokeClaim caller claim) =>
      let r := proof_of_existence.revoke_claim rt.proof_of_existence caller claim
      ({ rt with proof_of_existence := r.1 }, r.2)

/-- The loop body of Runtime::execute_block: increment the nonce of the caller,
then dispatch; the dispatch result is only reported, never propagated. -/
def applyExtrinsic (rt : Runtime) (ext : Extrinsic) : Runtime :=
  let rt1 := { rt with system := system.inc_nonce rt.system ext.caller }
  (rt1.dispatch ext.caller ext.call).1

/-- Runtime::execute_block: increment the block number unconditionally,
abort on header mismatch, otherwise run every extrinsic in order and
return ok. -/
def Runtime.execute_block (rt : Runtime) (block : Block) :
    Runtime × DispatchResult :=
  let rt1 := { rt with system := system.inc_block_number rt.system }
  if rt1.system.block_number ≠ block.header.block_number then
    (rt1, Except.error "The imported block number doesn\x27t match the current\x27s")
  else
    (block.extrinsics.foldl applyExtrinsic rt1, Except.ok ())

/-! ## Helper lemmas -/

theorem dispatch_system_eq (rt : Runtime) (c : AccountID) (rc : RuntimeCall) :
    (rt.dispatch c rc).1.system = rt.system := by
  cases rc with
  | Balances b => cases b; rfl
  | ProofOfExistence p => cases p <;> rfl

theorem nonceOf_inc_nonce (p : system.Pallet) (c a : AccountID) :
    system.nonceOf (system.inc_nonce p c) a =
      system.nonceOf p a + (if c = a then 1 else 0) := by
  by_cases hc : c = a
  · subst hc
    simp [system.nonceOf, system.inc_nonce, mapLookup_mapInsert_self]
  · simp [system.nonceOf, system.inc_nonce, hc,
      mapLookup_mapInsert_ne _ _ _ _ (fun e => hc e.symm)]

theorem applyExtrinsic_nonce (rt : Runtime) (e : Extrinsic) (a : AccountID) :
    system.nonceOf (applyExtrinsic rt e).system a =
      system.nonceOf rt.system a + (if e.caller = a then 1 else 0) := by
  simp [applyExtrinsic, dispatch_system_eq, nonceOf_inc_nonce]

theorem foldl_applyExtrinsic_nonce (exts : List Extrinsic) (rt : Runtime)
    (a : AccountID) :
    system.nonceOf (exts.foldl applyExtrinsic rt).system a =
      system.nonceOf rt.system a +
        exts.countP (fun e => decide (e.caller = a)) := by
  induction exts generalizing rt with
  | nil => simp
  | cons e rest ih =>
      rw [List.foldl_cons, ih, applyExtrinsic_nonce, List.countP_cons]
      by_cases hc : e.caller = a
      · simp [hc]
        omega
      · simp [hc]

theorem applyExtrinsic_block_number (rt : Runtime) (e : Extrinsic) :
    (applyExtrinsic rt e).system.block_number = rt.system.block_number := by
  simp [applyExtrinsic, dispatch_system_eq, system.inc_nonce]

theorem foldl_applyExtrinsic_block_number (exts : List Extrinsic) (rt : Runtime) :
    (exts.foldl applyExtrinsic rt).system.block_number =
      rt.system.block_number := by
  induction exts generalizing rt with
  | nil => rfl
  | cons e rest ih => rw [List.foldl_cons, ih, applyExtrinsic_block_number]

theorem get_claim_eq_mapLookup (m : proof_of_existence.Pallet) (c : Content) :
    proof_of_existence.get_claim m c = mapLookup m.claims c := by
  cases hv : mapLookup m.claims c <;>
    simp [proof_of_existence.get_claim, hv]

theorem transfer_ok_sumValues (st : balances.Pallet) (a b : AccountID)
    (amt : Nat) (hab : a ≠ b)
    (h : (balances.transfer st a b amt).2 = Except.ok ()) :
    sumValues (balances.transfer st a b amt).1.balances =
      sumValues st.balances := by
  by_cases h1 : amt ≤ balances.balance st a
  · by_cases h2 : balances.balance st b + amt < u128Size
    · have hstate : (balances.transfer st a b amt).1.balances =
          mapInsert (mapInsert st.balances a (balances.balance st a - amt)) b
            (balances.balance st b + amt) := by
        simp [balances.transfer, checked_sub, checked_add, h1, h2,
          balances.set_balance]
      have e1 := sumValues_mapInsert st.balances a (balances.balance st a - amt)
      have e2 := sumValues_mapInsert
        (mapInsert st.balances a (balances.balance st a - amt)) b
        (balances.balance st b + amt)
      have e3 : mapLookup (mapInsert st.balances a (balances.balance st a - amt)) b
          = mapLookup st.balances b :=
        mapLookup_mapInsert_ne _ _ _ _ (fun e => hab e.symm)
      rw [hstate]
      rw [e3] at e2
      simp only [balances.balance] at h1 e1 e2 ⊢
      omega
    · simp [balances.transfer, checked_sub, checked_add, h1, h2] at h
  · simp [balances.transfer, checked_sub, h1] at h

/-! ## Claim theorems -/

/-- C1: execute_block increments the block number by one in every case,
and when the incremented block number differs from the block number of
the header it returns the block-number-mismatch error with a state that is
the original one except for the advanced block number: no nonce is
incremented, no call is dispatched, and the increment is not rolled
back. -/
theorem c1_execute_block_mismatch (rt : Runtime) (block : Block) :
    (rt.execute_block block).1.system.block_number =
      rt.system.block_number + 1 ∧
    (rt.system.block_number + 1 ≠ block.header.block_number →
      rt.execute_block block =
        ({ rt with system := { rt.system with
            block_number := rt.system.block_number + 1 } },
         Except.error "The imported block number doesn\x27t match the current\x27s")) := by
  constructor
  · by_cases h : rt.system.block_number + 1 = block.header.block_number
    · simp [Runtime.execute_block, system.inc_block_number, h,
        foldl_applyExtrinsic_block_number]
    · simp [Runtime.execute_block, system.inc_block_number, h]
  · intro h
    simp [Runtime.execute_block, system.inc_block_number, h]

/-- C1 witness: Scenario E, a fresh runtime (block number zero) executing
a block with header number 5 and one extrinsic. -/
theorem c1_execute_block_mismatch_witness :
    (Runtime.new.execute_block
        { header := { block_number := 5 },
          extrinsics := [{ caller := "alice",
                           call := .Balances (.Transfer "bob" 30) }] }).1.system.block_number =
      Runtime.new.system.block_number + 1 ∧
    (Runtime.new.system.block_number + 1 ≠ 5 ∧
      Runtime.new.execute_block
          { header := { block_number := 5 },
            extrinsics := [{ caller := "alice",
                             call := .Balances (.Transfer "bob" 30) }] } =
        ({ Runtime.new with system := { Runtime.new.system with
            block_number := Runtime.new.system.block_number + 1 } },
         Except.error "The imported block number doesn\x27t match the current\x27s")) :=
  ⟨(c1_execute_block_mismatch Runtime.new _).1,
   by decide,
   (c1_execute_block_mismatch Runtime.new _).2 (by decide)⟩

/-- C6: on a block whose header matches the incremented block number,
execute_block returns ok unconditionally, and its final state is the
in-order fold of the per-extrinsic step (nonce increment followed by
dispatch with the result discarded) over all extrinsics: a failed
dispatch neither aborts the block, nor rolls back earlier extrinsics,
nor skips later ones. -/
theorem c6_execute_block_error_isolation (rt : Runtime) (block : Block)
    (h : block.header.block_number = rt.system.block_number + 1) :
    (rt.execute_block block).2 = Except.ok () ∧
    (rt.execute_block block).1 =
      block.extrinsics.foldl applyExtrinsic
        { rt with system := system.inc_block_number rt.system } := by
  constructor <;> simp [Runtime.execute_block, system.inc_block_number, h]

/-- C6 witness: a fresh runtime executing block 1 whose first extrinsic
fails (alice has no funds) and whose second is a proof-of-existence
claim; the block still returns ok and both extrinsics are processed. -/
theorem c6_execute_block_error_isolation_witness :
    ((1 : Nat) = Runtime.new.system.block_number + 1 ∧
      (Runtime.new.execute_block
          { header := { block_number := 1 },
            extrinsics :=
              [{ caller := "alice", call := .Balances (.Transfer "bob" 30) },
               { caller := "bob",
                 call := .ProofOfExistence (.CreateClaim "bob" "B") }] }).2 =
        Except.ok ()) ∧
    (Runtime.new.execute_block
        { header := { block_number := 1 },
          extrinsics :=
            [{ caller := "alice", call := .Balances (.Transfer "bob" 30) },
             { caller := "bob",
               call := .ProofOfExistence (.CreateClaim "bob" "B") }] }).1 =
      [{ caller := "alice", call := RuntimeCall.Balances (.Transfer "bob" 30) },
       { caller := "bob",
         call := RuntimeCall.ProofOfExistence (.CreateClaim "bob" "B") }].foldl
        applyExtrinsic
        { Runtime.new with system := system.inc_block_number Runtime.new.system } :=
  ⟨⟨by decide,
    (c6_execute_block_error_isolation Runtime.new _ (by decide)).1⟩,
   (c6_execute_block_error_isolation Runtime.new _ (by decide)).2⟩

/-- C5: on a block whose header matches the incremented block number,
execute_block raises the nonce of every account A by exactly the number
of extrinsics whose extrinsic-level caller is A, independently of how
many of those dispatches fail. -/
theorem c5_nonce_per_extrinsic (rt : Runtime) (block : Block) (a : AccountID)
    (h : block.header.block_number = rt.system.block_number + 1) :
    system.nonceOf (rt.execute_block block).1.system a =
      system.nonceOf rt.system a +
        block.extrinsics.countP (fun e => decide (e.caller = a)) := by
  have hstate : (rt.execute_block block).1 =
      block.extrinsics.foldl applyExtrinsic
        { rt with system := system.inc_block_number rt.system } := by
    simp [Runtime.execute_block, system.inc_block_number, h]
  rw [hstate, foldl_applyExtrinsic_nonce]
  rfl

/-- C5 witness: a fresh runtime executing block 1 with two alice
extrinsics (one of which fails) and one bob extrinsic; the nonce of alice goes
from zero to two. -/
theorem c5_nonce_per_extrinsic_witness :
    ((1 : Nat) = Runtime.new.system.block_number + 1) ∧
    system.nonceOf
        (Runtime.new.execute_block
          { header := { block_number := 1 },
            extrinsics :=
              [{ caller := "alice", call := .Balances (.Transfer "bob" 30) },
               { caller := "bob",
                 call := .ProofOfExistence (.CreateClaim "bob" "B") },
               { caller := "alice",
                 call := .ProofOfExistence (.CreateClaim "alice" "A") }] }).1.system
        "alice" =
      system.nonceOf Runtime.new.system "alice" +
        ([{ caller := "alice", call := RuntimeCall.Balances (.Transfer "bob" 30) },
          { caller := "bob",
            call := RuntimeCall.ProofOfExistence (.CreateClaim "bob" "B") },
          { caller := "alice",
            call := RuntimeCall.ProofOfExistence (.CreateClaim "alice" "A") }] :
          List Extrinsic).countP
          (fun e => decide (e.caller = "alice")) :=
  ⟨by decide, c5_nonce_per_extrinsic Runtime.new _ "alice" (by decide)⟩

/-- Fold a sequence of (caller, recipient, amount) transfer calls through
the balances pallet, each call seeing the state left by the previous call. -/
def applyTransfers (st : balances.Pallet)
    (seq : List (AccountID × AccountID × Nat)) : balances.Pallet :=
  seq.foldl (fun s t => (balances.transfer s t.1 t.2.1 t.2.2).1) st

/-- Every transfer call of the sequence, run in order from the given
state, returns ok. -/
def transfersAllOk : balances.Pallet → List (AccountID × AccountID × Nat) → Prop
  | _, [] => True
  | st, t :: rest =>
      (balances.transfer st t.1 t.2.1 t.2.2).2 = Except.ok () ∧
      transfersAllOk (balances.transfer st t.1 t.2.1 t.2.2).1 rest

/-- Concrete one-account state used for the self-transfer counterexamples. -/
def stSelf : balances.Pallet := { balances := [("alice", 10)] }

/-- C2 counterexample: a sequence consisting of one successful
self-transfer of 5 from the state with alice holding 10 — every call
returns ok, yet the sum of all balances changes from 10 to 15. -/
theorem c2_conservation_cex :
    transfersAllOk stSelf [("alice", "alice", 5)] ∧
    sumValues (applyTransfers stSelf [("alice", "alice", 5)]).balances ≠
      sumValues stSelf.balances := by
  refine ⟨⟨rfl, trivial⟩, ?_⟩
  decide

/-- C2 (amended): for every balances state and every finite sequence of
transfer calls in which every call returns ok and each caller
differs from its recipient, the sum of all balances is preserved. -/
theorem c2_conservation (st : balances.Pallet)
    (seq : List (AccountID × AccountID × Nat))
    (hok : transfersAllOk st seq) (hne : ∀ t ∈ seq, t.1 ≠ t.2.1) :
    sumValues (applyTransfers st seq).balances = sumValues st.balances := by
  induction seq generalizing st with
  | nil => rfl
  | cons t rest ih =>
      obtain ⟨h1, h2⟩ := hok
      have hstep := transfer_ok_sumValues st t.1 t.2.1 t.2.2
        (hne t (List.mem_cons_self _ _)) h1
      have hrest := ih _ h2 (fun t' ht' => hne t' (List.mem_cons_of_mem _ ht'))
      simpa [applyTransfers] using hrest.trans hstep

/-- C2 witness: alice pays bob 3, then bob pays carol 2, from the state
with alice holding 10; both succeed between distinct accounts and the
total stays 10. -/
theorem c2_conservation_witness :
    transfersAllOk { balances := [("alice", 10)] }
        [("alice", "bob", 3), ("bob", "carol", 2)] ∧
    (∀ t ∈ ([("alice", "bob", 3), ("bob", "carol", 2)] :
        List (AccountID × AccountID × Nat)), t.1 ≠ t.2.1) ∧
    sumValues (applyTransfers { balances := [("alice", 10)] }
        [("alice", "bob", 3), ("bob", "carol", 2)]).balances =
      sumValues ({ balances := [("alice", 10)] } : balances.Pallet).balances := by
  refine ⟨⟨rfl, rfl, trivial⟩, by decide, ?_⟩
  exact c2_conservation _ _ ⟨rfl, rfl, trivial⟩ (by decide)

/-- C3 counterexample: at caller = recipient = alice with balance 10 and
amount 5, transfer succeeds but the balance of alice becomes 15, not 10 - 5:
the success clause of the claim fails for a pair of equal accounts. -/
theorem c3_transfer_atomicity_cex :
    (balances.transfer stSelf "alice" "alice" 5).2 = Except.ok () ∧
    balances.balance (balances.transfer stSelf "alice" "alice" 5).1 "alice" ≠
      10 - 5 := by
  refine ⟨rfl, ?_⟩
  decide

/-- C3 (amended): for distinct accounts a and b, transfer either succeeds
and changes exactly the two balances consistently (a down by amt, b up by
amt, all other accounts untouched), or fails — with the insufficient-funds
error when the subtraction underflows, else with the overflow error when
the addition overflows — leaving the ledger unchanged; for a = b a
successful call instead leaves the single balance increased by amt. -/
theorem c3_transfer_atomicity (st : balances.Pallet) (a b : AccountID)
    (amt : Nat) (hab : a ≠ b) :
    (amt > balances.balance st a →
      balances.transfer st a b amt = (st, Except.error "Not enough funds")) ∧
    (amt ≤ balances.balance st a → balances.balance st b + amt ≥ u128Size →
      balances.transfer st a b amt = (st, Except.error "Amount is too large")) ∧
    (amt ≤ balances.balance st a → balances.balance st b + amt < u128Size →
      (balances.transfer st a b amt).2 = Except.ok () ∧
      balances.balance (balances.transfer st a b amt).1 a =
        balances.balance st a - amt ∧
      balances.balance (balances.transfer st a b amt).1 b =
        balances.balance st b + amt ∧
      ∀ x, x ≠ a → x ≠ b →
        balances.balance (balances.transfer st a b amt).1 x =
          balances.balance st x) := by
  refine ⟨?_, ?_, ?_⟩
  · intro h1
    simp [balances.transfer, checked_sub,
      show ¬ amt ≤ balances.balance st a by omega]
  · intro h1 h2
    simp [balances.transfer, checked_sub, checked_add, h1,
      show ¬ (balances.balance st b + amt < u128Size) by omega]
  · intro h1 h2
    have hres : balances.transfer st a b amt =
        (balances.set_balance
           (balances.set_balance st a (balances.balance st a - amt)) b
           (balances.balance st b + amt), Except.ok ()) := by
      simp [balances.transfer, checked_sub, checked_add, h1, h2]
    rw [hres]
    refine ⟨rfl, ?_, ?_, ?_⟩
    · simp [balances.balance, balances.set_balance, hab,
        mapLookup_mapInsert_self, mapLookup_mapInsert_ne]
    · simp [balances.balance, balances.set_balance, mapLookup_mapInsert_self]
    · intro x hx1 hx2
      simp [balances.balance, balances.set_balance, hx1, hx2,
        mapLookup_mapInsert_ne]

/-- C3 witness: alice and bob are distinct; with alice holding 10, a
transfer of 5 to bob succeeds, alice ends at 5, bob at 5, and carol is
untouched. -/
theorem c3_transfer_atomicity_witness :
    (("alice" : AccountID) ≠ "bob") ∧
    ((5 : Nat) ≤ balances.balance stSelf "alice" →
      balances.balance stSelf "bob" + 5 < u128Size →
      (balances.transfer stSelf "alice" "bob" 5).2 = Except.ok () ∧
      balances.balance (balances.transfer stSelf "alice" "bob" 5).1 "alice" =
        balances.balance stSelf "alice" - 5 ∧
      balances.balance (balances.transfer stSelf "alice" "bob" 5).1 "bob" =
        balances.balance stSelf "bob" + 5 ∧
      ∀ x, x ≠ "alice" → x ≠ "bob" →
        balances.balance (balances.transfer stSelf "alice" "bob" 5).1 x =
          balances.balance stSelf x) :=
  ⟨by decide, (c3_transfer_atomicity stSelf "alice" "bob" 5 (by decide)).2.2⟩

/-- C9: a self-transfer whose checks pass returns ok and leaves the
account's balance increased by the amount: the decremented caller balance
is written first and then overwritten by the incremented recipient
balance. -/
theorem c9_self_transfer_mints (st : balances.Pallet) (a : AccountID)
    (amt : Nat) (h1 : amt ≤ balances.balance st a)
    (h2 : balances.balance st a + amt < u128Size) :
    (balances.transfer st a a amt).2 = Except.ok () ∧
    balances.balance (balances.transfer st a a amt).1 a =
      balances.balance st a + amt := by
  have hres : balances.transfer st a a amt =
      (balances.set_balance
         (balances.set_balance st a (balances.balance st a - amt)) a
         (balances.balance st a + amt), Except.ok ()) := by
    simp [balances.transfer, checked_sub, checked_add, h1, h2]
  rw [hres]
  exact ⟨rfl, by simp [balances.balance, balances.set_balance,
    mapLookup_mapInsert_self]⟩

/-- C9 witness: alice holds 10 and self-transfers 5; the call succeeds
and alice ends with 15. -/
theorem c9_self_transfer_mints_witness :
    (5 : Nat) ≤ balances.balance stSelf "alice" ∧
    balances.balance stSelf "alice" + 5 < u128Size ∧
    ((balances.transfer stSelf "alice" "alice" 5).2 = Except.ok () ∧
      balances.balance (balances.transfer stSelf "alice" "alice" 5).1 "alice" =
        balances.balance stSelf "alice" + 5) :=
  ⟨by decide, by decide,
   c9_self_transfer_mints stSelf "alice" 5 (by decide) (by decide)⟩

/-- C4: the dispatcher hands the extrinsic-level caller to the balances
transfer, while both proof-of-existence variants are routed with the
caller field carried inside the call; consequently, for the two
proof-of-existence variants, dispatch results and resulting states are
identical for any two extrinsic-level callers. -/
theorem c4_dispatch_caller_routing (rt : Runtime) (c1 c2 : AccountID)
    (pc : proof_of_existence.Call) (toAcc : AccountID) (amount : Nat) :
    rt.dispatch c1 (.ProofOfExistence pc) =
      rt.dispatch c2 (.ProofOfExistence pc) ∧
    rt.dispatch c1 (.Balances (.Transfer toAcc amount)) =
      ({ rt with balances := (balances.transfer rt.balances c1 toAcc amount).1 },
       (balances.transfer rt.balances c1 toAcc amount).2) ∧
    (match pc with
     | .CreateClaim cc claim =>
         rt.dispatch c1 (.ProofOfExistence pc) =
           ({ rt with proof_of_existence :=
                (proof_of_existence.create_claim rt.proof_of_existence cc claim).1 },
            (proof_of_existence.create_claim rt.proof_of_existence cc claim).2)
     | .RevokeClaim cc claim =>
         rt.dispatch c1 (.ProofOfExistence pc) =
           ({ rt with proof_of_existence :=
                (proof_of_existence.revoke_claim rt.proof_of_existence cc claim).1 },
            (proof_of_existence.revoke_claim rt.proof_of_existence cc claim).2)) := by
  refine ⟨?_, rfl, ?_⟩ <;> cases pc <;> rfl

/-- C10: dispatch never changes the system pallet — neither the block
number nor any nonce — and changes at most the pallet store named by the
variant of the call. -/
theorem c10_dispatch_frame (rt : Runtime) (caller : AccountID)
    (rc : RuntimeCall) :
    (rt.dispatch caller rc).1.system = rt.system ∧
    (match rc with
     | .Balances _ =>
         (rt.dispatch caller rc).1.proof_of_existence = rt.proof_of_existence
     | .ProofOfExistence _ =>
         (rt.dispatch caller rc).1.balances = rt.balances) := by
  refine ⟨dispatch_system_eq rt caller rc, ?_⟩
  cases rc with
  | Balances b => cases b; rfl
  | ProofOfExistence p => cases p <;> rfl

/-- C7: create_claim fails with the claim-already-exists error exactly
when the content is present in the ledger (whoever the caller is),
leaving the ledger unchanged; otherwise it succeeds, records the caller
as owner, and any later create_claim on the same content fails. -/
theorem c7_create_claim_uniqueness (m : proof_of_existence.Pallet)
    (caller : AccountID) (c : Content) :
    ((proof_of_existence.create_claim m caller c).2 =
        Except.error "Claim already exists" ↔
      (proof_of_existence.get_claim m c).isSome = true) ∧
    ((proof_of_existence.get_claim m c).isSome = true →
      (proof_of_existence.create_claim m caller c).1 = m) ∧
    ((proof_of_existence.get_claim m c).isSome = false →
      (proof_of_existence.create_claim m caller c).2 = Except.ok () ∧
      proof_of_existence.get_claim
          (proof_of_existence.create_claim m caller c).1 c = some caller ∧
      ∀ y, (proof_of_existence.create_claim
              (proof_of_existence.create_claim m caller c).1 y c).2 =
            Except.error "Claim already exists") := by
  cases hv : mapLookup m.claims c with
  | some o =>
      refine ⟨?_, ?_, ?_⟩
      · simp [proof_of_existence.create_claim, get_claim_eq_mapLookup, hv]
      · intro _
        simp [proof_of_existence.create_claim, hv]
      · intro hfalse
        rw [get_claim_eq_mapLookup, hv] at hfalse
        simp at hfalse
  | none =>
      refine ⟨?_, ?_, ?_⟩
      · simp [proof_of_existence.create_claim, get_claim_eq_mapLookup, hv]
      · intro hsome
        rw [get_claim_eq_mapLookup, hv] at hsome
        simp at hsome
      · intro _
        refine ⟨?_, ?_, ?_⟩
        · simp [proof_of_existence.create_claim, hv]
        · simp [proof_of_existence.create_claim, hv, get_claim_eq_mapLookup,
            mapLookup_mapInsert_self]
        · intro y
          simp [proof_of_existence.create_claim, hv, mapLookup_mapInsert_self]

/-- C7 witness: on the empty claim ledger alice claims X successfully,
the subsequent claim of X by bob fails, and a create on the ledger already
holding X leaves it unchanged. -/
theorem c7_create_claim_uniqueness_witness :
    ((proof_of_existence.get_claim { claims := [] } "X").isSome = false ∧
      (proof_of_existence.create_claim { claims := [] } "alice" "X").2 =
        Except.ok () ∧
      (proof_of_existence.create_claim
          (proof_of_existence.create_claim { claims := [] } "alice" "X").1
          "bob" "X").2 = Except.error "Claim already exists") ∧
    ((proof_of_existence.get_claim { claims := [("X", "alice")] } "X").isSome =
        true ∧
      (proof_of_existence.create_claim { claims := [("X", "alice")] }
          "alice" "X").1 = { claims := [("X", "alice")] }) :=
  ⟨⟨by decide,
    ((c7_create_claim_uniqueness { claims := [] } "alice" "X").2.2 (by decide)).1,
    ((c7_create_claim_uniqueness { claims := [] } "alice" "X").2.2
        (by decide)).2.2 "bob"⟩,
   ⟨by decide,
    (c7_create_claim_uniqueness { claims := [("X", "alice")] } "alice" "X").2.1
      (by decide)⟩⟩

/-- C8: revoke_claim fails with the claim-not-found error when the
content is unclaimed and with the not-claim-owner error when it is owned
by someone else, leaving the ledger unchanged in both cases; when the
caller is the owner it succeeds, the entry is removed entirely, and every
other claim is untouched. -/
theorem c8_revoke_claim_ownership (m : proof_of_existence.Pallet)
    (y : AccountID) (c : Content) :
    (proof_of_existence.get_claim m c = none →
      proof_of_existence.revoke_claim m y c =
        (m, Except.error "Claim does not exist")) ∧
    (∀ o, proof_of_existence.get_claim m c = some o → o ≠ y →
      proof_of_existence.revoke_claim m y c =
        (m, Except.error "Not the owner")) ∧
    (proof_of_existence.get_claim m c = some y →
      (proof_of_existence.revoke_claim m y c).2 = Except.ok () ∧
      proof_of_existence.get_claim (proof_of_existence.revoke_claim m y c).1 c =
        none ∧
      ∀ c2, c2 ≠ c →
        proof_of_existence.get_claim
            (proof_of_existence.revoke_claim m y c).1 c2 =
          proof_of_existence.get_claim m c2) := by
  refine ⟨?_, ?_, ?_⟩
  · intro h
    simp [proof_of_existence.revoke_claim, h]
  · intro o ho hne
    simp [proof_of_existence.revoke_claim, ho, hne]
  · intro h
    refine ⟨?_, ?_, ?_⟩
    · simp [proof_of_existence.revoke_claim, h]
    · simp [proof_of_existence.revoke_claim, h, get_claim_eq_mapLookup,
        mapLookup_mapRemove_self]
    · intro c2 hne
      simp [proof_of_existence.revoke_claim, h, get_claim_eq_mapLookup,
        mapLookup_mapRemove_ne _ _ _ hne]

/-- C8 witness: with alice owning X and Y, revoking Z fails as not found,
bob revoking X fails as not the owner, and alice revoking X succeeds,
empties X, and leaves Y in place. -/
theorem c8_revoke_claim_ownership_witness :
    (proof_of_existence.revoke_claim
        { claims := [("X", "alice"), ("Y", "alice")] } "bob" "Z" =
      ({ claims := [("X", "alice"), ("Y", "alice")] },
       Except.error "Claim does not exist")) ∧
    (proof_of_existence.revoke_claim
        { claims := [("X", "alice"), ("Y", "alice")] } "bob" "X" =
      ({ claims := [("X", "alice"), ("Y", "alice")] },
       Except.error "Not the owner")) ∧
    ((proof_of_existence.revoke_claim
          { claims := [("X", "alice"), ("Y", "alice")] } "alice" "X").2 =
        Except.ok () ∧
      proof_of_existence.get_claim
          (proof_of_existence.revoke_claim
            { claims := [("X", "alice"), ("Y", "alice")] } "alice" "X").1 "X" =
        none ∧
      proof_of_existence.get_claim
          (proof_of_existence.revoke_claim
            { claims := [("X", "alice"), ("Y", "alice")] } "alice" "X").1 "Y" =
        proof_of_existence.get_claim
          { claims := [("X", "alice"), ("Y", "alice")] } "Y") :=
  ⟨(c8_revoke_claim_ownership
      { claims := [("X", "alice"), ("Y", "alice")] } "bob" "Z").1 (by decide),
   (c8_revoke_claim_ownership
      { claims := [("X", "alice"), ("Y", "alice")] } "bob" "X").2.1
     "alice" (by decide) (by decide),
   ((c8_revoke_claim_ownership
       { claims := [("X", "alice"), ("Y", "alice")] } "alice" "X").2.2
      (by decide)).1,
   ((c8_revoke_claim_ownership
       { claims := [("X", "alice"), ("Y", "alice")] } "alice" "X").2.2
      (by decide)).2.1,
   ((c8_revoke_claim_ownership
       { claims := [("X", "alice"), ("Y", "alice")] } "alice" "X").2.2
      (by decide)).2.2 "Y" (by decide)⟩
